import Mathlib

/-!
Verification development for the cursor-pagination layer of a pixiv API client
(package `pixiv`, file `response.go`).

The paginated response types (`RespComments`, `RespNovels`, `RespIllusts`,
`RespUserPreviews`, `RespBookmarkTags`) and their advance methods
(`NextComments`, `NextNovels`, `NextIllusts`, `NextFollowing`) are translated
from `response.go`.  The transport collaborator `AppAPI.get` is not part of the
given source (only `response.go` is); it is modelled from the specification of
the Transport/Fetcher contract.  Go's in-place mutation is made explicit: each
advance method returns the receiver after the call together with the two Go
return values, and every invocation of `get` is recorded in a call log so that
"no network call is made" is a statement about the log.
-/

namespace pixiv

/-- Modelled from the spec: business data record for a comment; its attributes
are out of scope, only identity matters. -/
structure Comment where
  id : Int
deriving DecidableEq, Repr

/-- Modelled from the spec: business data record for a novel. -/
structure Novel where
  id : Int
deriving DecidableEq, Repr

/-- Modelled from the spec: business data record for an illustration. -/
structure Illust where
  id : Int
deriving DecidableEq, Repr

/-- Modelled from the spec: business data record for a user preview. -/
structure UserPreview where
  id : Int
deriving DecidableEq, Repr

/-- Element of `RespBookmarkTags.BookmarkTags` (anonymous struct in the source:
`Count int`, `Name string`). -/
structure BookmarkTag where
  Count : Int
  Name : String
deriving DecidableEq, Repr

/-- Modelled from the spec: the Transport/Fetcher collaborator (`*AppAPI` in
the source, defined outside `response.go`).  Pages hold a pointer to it; two
pages are bound to the same fetcher when these values are equal. -/
structure AppAPI where
  id : Int
deriving DecidableEq, Repr

/-- Extra query parameters of a fetch (`url.Values` in Go); pagination always
passes `none` (Go `nil`). -/
abbrev Params := List (String × String)

/-- Modelled from the spec: an opaque `FetchError` from the collaborator,
covering network failures, HTTP error statuses and JSON-decode failures. -/
structure FetchErr where
  code : Int
deriving DecidableEq, Repr

/-- The designated `FetchError` returned by `get` when its fetcher is torn
down (`nil` receiver); modelled from the spec's design note that a torn-down
fetcher fails with a clear `FetchError`, not undefined behavior. -/
def nilFetcherErr : FetchErr := { code := 0 }

/-- A Go `error` value as returned by the advance methods: either the sentinel
`ErrEmptyNextURL` (`errors.New("pixiv: empty next_url field")`) or a fetch
error propagated from `AppAPI.get`. -/
inductive GoError where
  | emptyNextURL : GoError
  | fetchErr : FetchErr → GoError
deriving DecidableEq, Repr

/-- The sentinel `ErrEmptyNextURL` from `response.go`. -/
def ErrEmptyNextURL : GoError := GoError.emptyNextURL

/-- One recorded invocation of the fetcher's `get`: the URL it was given and
the extra-parameters argument. -/
structure GetCall where
  url : String
  extraParams : Option Params
deriving DecidableEq, Repr

/-- Result of a call to `AppAPI.get`: the target after in-place population,
the returned error, and the log of `get` invocations (always exactly one). -/
structure GetResult (Resp : Type) where
  target : Resp
  err : Option FetchErr
  calls : List GetCall
deriving DecidableEq, Repr

/-- Result of an advance method: the receiver after the call (Go never writes
through it, made explicit here), the two Go return values `(page, err)`, and
the log of `get` invocations performed. -/
structure NextResult (Resp : Type) where
  receiver : Resp
  page : Option Resp
  err : Option GoError
  calls : List GetCall
deriving DecidableEq, Repr

/-- Modelled from the spec: `AppAPI.get` (defined outside `response.go`).  It
performs one authenticated GET against `url` with `params`, decodes the JSON
body into `target` in place via `decodeInto`, and returns the fetch error if
the call or the decode fails (the target is then not observed by callers and
is left unchanged here).  A torn-down (`nil`) fetcher fails with
`nilFetcherErr`.  The server is abstracted as `net`; every invocation logs
exactly one `GetCall`. -/
def AppAPI.get {Doc Resp : Type} (api : Option AppAPI)
    (net : AppAPI → String → Option Params → Except FetchErr Doc)
    (decodeInto : Doc → Resp → Resp) (target : Resp) (url : String)
    (params : Option Params) : GetResult Resp :=
  match api with
  | none =>
      { target := target, err := some nilFetcherErr
        calls := [{ url := url, extraParams := params }] }
  | some a =>
      match net a url params with
      | Except.error e =>
          { target := target, err := some e
            calls := [{ url := url, extraParams := params }] }
      | Except.ok doc =>
          { target := decodeInto doc target, err := none
            calls := [{ url := url, extraParams := params }] }

/-- Go `encoding/json` matches an object key to a struct field that has no
`json` tag by case-insensitive comparison with the field's name (compared
here character by character over the underlying character lists). -/
def goFieldKeyMatch (fieldName key : String) : Bool :=
  fieldName.data.map Char.toLower == key.data.map Char.toLower

/-- The name of the untagged cursor field of `RespBookmarkTags`. -/
def nextURLFieldName : String := "NextURL"

/-- The JSON key under which the upstream service returns the cursor. -/
def nextURLJsonKey : String := "next_url"

/-- Server JSON body for a comments endpoint: keys `comments`, `next_url`. -/
structure CommentsDoc where
  comments : List Comment
  next_url : String
deriving DecidableEq, Repr

/-- Server JSON body for a novels endpoint. -/
structure NovelsDoc where
  novels : List Novel
  next_url : String
  ranking_novels : List Novel
  search_span_limit : Int
deriving DecidableEq, Repr

/-- Server JSON body for an illusts endpoint. -/
structure IllustsDoc where
  illusts : List Illust
  next_url : String
  ranking_illusts : List Illust
  search_span_limit : Int
deriving DecidableEq, Repr

/-- Server JSON body for the user-following endpoint. -/
structure UserPreviewsDoc where
  user_previews : List UserPreview
  next_url : String
deriving DecidableEq, Repr

/-- Server JSON body for the bookmark-tags endpoint. -/
structure BookmarkTagsDoc where
  bookmark_tags : List BookmarkTag
  next_url : String
deriving DecidableEq, Repr

/-- `RespComments` from `response.go`: `Comments` (tag `comments`), `NextURL`
(tag `next_url`), and the unexported fetcher pointer `api`. -/
structure RespComments where
  Comments : List Comment
  NextURL : String
  api : Option AppAPI
deriving DecidableEq, Repr

/-- `RespNovels` from `response.go`: `Novels` (tag `novels`), `NextURL` (tag
`next_url`), `RankingNovels` (tag `ranking_novels`), `SearchSpanLimit` (tag
`search_span_limit`), and the fetcher pointer `api`. -/
structure RespNovels where
  Novels : List Novel
  NextURL : String
  RankingNovels : List Novel
  SearchSpanLimit : Int
  api : Option AppAPI
deriving DecidableEq, Repr

/-- `RespIllusts` from `response.go`: `Illusts` (tag `illusts`), `NextURL`
(tag `next_url`), `RankingIllusts` (tag `ranking_illusts`),
`SearchSpanLimit` (tag `search_span_limit`), and the fetcher pointer `api`. -/
structure RespIllusts where
  Illusts : List Illust
  NextURL : String
  RankingIllusts : List Illust
  SearchSpanLimit : Int
  api : Option AppAPI
deriving DecidableEq, Repr

/-- `RespUserPreviews` from `response.go`: `UserPreviews` (tag
`user_previews`), `NextURL` (tag `next_url`), and the fetcher pointer
`api`. -/
structure RespUserPreviews where
  UserPreviews : List UserPreview
  NextURL : String
  api : Option AppAPI
deriving DecidableEq, Repr

/-- `RespBookmarkTags` from `response.go`: `BookmarkTags` (tag
`bookmark_tags`), `NextURL` — which carries NO `json` tag in the source —
and the fetcher pointer `api`.  No advance method is defined on it in
`response.go`. -/
structure RespBookmarkTags where
  BookmarkTags : List BookmarkTag
  NextURL : String
  api : Option AppAPI
deriving DecidableEq, Repr

/-- JSON decode of a comments body into a `RespComments` target: the tagged
fields `Comments` and `NextURL` are populated from keys `comments` and
`next_url`; the unexported `api` field is untouched by `encoding/json`. -/
def decodeComments (doc : CommentsDoc) (target : RespComments) : RespComments :=
  { Comments := doc.comments, NextURL := doc.next_url, api := target.api }

/-- JSON decode of a novels body into a `RespNovels` target. -/
def decodeNovels (doc : NovelsDoc) (target : RespNovels) : RespNovels :=
  { Novels := doc.novels, NextURL := doc.next_url
    RankingNovels := doc.ranking_novels
    SearchSpanLimit := doc.search_span_limit, api := target.api }

/-- JSON decode of an illusts body into a `RespIllusts` target. -/
def decodeIllusts (doc : IllustsDoc) (target : RespIllusts) : RespIllusts :=
  { Illusts := doc.illusts, NextURL := doc.next_url
    RankingIllusts := doc.ranking_illusts
    SearchSpanLimit := doc.search_span_limit, api := target.api }

/-- JSON decode of a user-previews body into a `RespUserPreviews` target. -/
def decodeUserPreviews (doc : UserPreviewsDoc) (target : RespUserPreviews) :
    RespUserPreviews :=
  { UserPreviews := doc.user_previews, NextURL := doc.next_url
    api := target.api }

/-- JSON decode of a bookmark-tags body into a `RespBookmarkTags` target.
`BookmarkTags` is tagged `bookmark_tags` and is populated from that key;
`NextURL` has no tag in the source, so Go matches it against body keys
case-insensitively by its field name, and the body's `next_url` key populates
it only if that match succeeds (it does not: `nexturl` is not `next_url`). -/
def decodeBookmarkTags (doc : BookmarkTagsDoc) (target : RespBookmarkTags) :
    RespBookmarkTags :=
  { BookmarkTags := doc.bookmark_tags
    NextURL := if goFieldKeyMatch nextURLFieldName nextURLJsonKey then
        doc.next_url
      else
        target.NextURL
    api := target.api }

/-- Abstract server behavior answering comments fetches. -/
abbrev CommentsNet := AppAPI → String → Option Params → Except FetchErr CommentsDoc

/-- Abstract server behavior answering novels fetches. -/
abbrev NovelsNet := AppAPI → String → Option Params → Except FetchErr NovelsDoc

/-- Abstract server behavior answering illusts fetches. -/
abbrev IllustsNet := AppAPI → String → Option Params → Except FetchErr IllustsDoc

/-- Abstract server behavior answering user-previews fetches. -/
abbrev UserPreviewsNet :=
  AppAPI → String → Option Params → Except FetchErr UserPreviewsDoc

/-- `NextComments` from `response.go`: fail with `ErrEmptyNextURL` if
`r.NextURL == ""`; otherwise build `rn := &RespComments{api: r.api}`, call
`r.api.get(rn, r.NextURL, nil)`, return the error with a nil page on failure
and `rn` with a nil error on success.  Nothing is ever written through `r`. -/
def RespComments.NextComments (r : RespComments) (net : CommentsNet) :
    NextResult RespComments :=
  if r.NextURL = "" then
    { receiver := r, page := none, err := some ErrEmptyNextURL, calls := [] }
  else
    let rn : RespComments := { Comments := [], NextURL := "", api := r.api }
    let g := AppAPI.get r.api net decodeComments rn r.NextURL none
    match g.err with
    | some e =>
        { receiver := r, page := none, err := some (GoError.fetchErr e)
          calls := g.calls }
    | none =>
        { receiver := r, page := some g.target, err := none, calls := g.calls }

/-- `NextNovels` from `response.go`, same shape as `NextComments` with
`rn := &RespNovels{api: r.api}` (zero values for all other fields). -/
def RespNovels.NextNovels (r : RespNovels) (net : NovelsNet) :
    NextResult RespNovels :=
  if r.NextURL = "" then
    { receiver := r, page := none, err := some ErrEmptyNextURL, calls := [] }
  else
    let rn : RespNovels :=
      { Novels := [], NextURL := "", RankingNovels := []
        SearchSpanLimit := 0, api := r.api }
    let g := AppAPI.get r.api net decodeNovels rn r.NextURL none
    match g.err with
    | some e =>
        { receiver := r, page := none, err := some (GoError.fetchErr e)
          calls := g.calls }
    | none =>
        { receiver := r, page := some g.target, err := none, calls := g.calls }

/-- `NextIllusts` from `response.go`, same shape as `NextComments` with
`rn := &RespIllusts{api: r.api}` (zero values for all other fields). -/
def RespIllusts.NextIllusts (r : RespIllusts) (net : IllustsNet) :
    NextResult RespIllusts :=
  if r.NextURL = "" then
    { receiver := r, page := none, err := some ErrEmptyNextURL, calls := [] }
  else
    let rn : RespIllusts :=
      { Illusts := [], NextURL := "", RankingIllusts := []
        SearchSpanLimit := 0, api := r.api }
    let g := AppAPI.get r.api net decodeIllusts rn r.NextURL none
    match g.err with
    | some e =>
        { receiver := r, page := none, err := some (GoError.fetchErr e)
          calls := g.calls }
    | none =>
        { receiver := r, page := some g.target, err := none, calls := g.calls }

/-- `NextFollowing` from `response.go`, same shape as `NextComments` with
`rn := &RespUserPreviews{api: r.api}`. -/
def RespUserPreviews.NextFollowing (r : RespUserPreviews)
    (net : UserPreviewsNet) : NextResult RespUserPreviews :=
  if r.NextURL = "" then
    { receiver := r, page := none, err := some ErrEmptyNextURL, calls := [] }
  else
    let rn : RespUserPreviews :=
      { UserPreviews := [], NextURL := "", api := r.api }
    let g := AppAPI.get r.api net decodeUserPreviews rn r.NextURL none
    match g.err with
    | some e =>
        { receiver := r, page := none, err := some (GoError.fetchErr e)
          calls := g.calls }
    | none =>
        { receiver := r, page := some g.target, err := none, calls := g.calls }

/-- Advance step of a comments traversal: the page produced by
`NextComments`, or `none` when the call failed. -/
def commentsStep (net : CommentsNet) (r : RespComments) : Option RespComments :=
  (r.NextComments net).page

/-- Advance step of an illusts traversal. -/
def illustsStep (net : IllustsNet) (r : RespIllusts) : Option RespIllusts :=
  (r.NextIllusts net).page

/-- The page reached after `n` advance steps from `r`, or `none` once some
step has failed: `chain step 0 r = r`, `chain step (n+1) r = step (chain step n r)`. -/
def chain {α : Type} (step : α → Option α) : Nat → α → Option α
  | 0, r => some r
  | n + 1, r =>
    match chain step n r with
    | none => none
    | some p => step p

/-- Sample fetcher used in concrete witnesses. -/
def sampleAPI : AppAPI := { id := 1 }

/-- Sample fetch error used in concrete witnesses. -/
def sampleErr : FetchErr := { code := 7 }

/-- Sample cursor URL used in concrete witnesses. -/
def cursor1 : String := "https://n/1"

/-- Sample comments page with a live cursor. -/
def pageC : RespComments :=
  { Comments := [], NextURL := cursor1, api := some sampleAPI }

/-- Sample novels page with a live cursor. -/
def pageN : RespNovels :=
  { Novels := [], NextURL := cursor1, RankingNovels := []
    SearchSpanLimit := 0, api := some sampleAPI }

/-- Sample illusts page with a live cursor. -/
def pageI : RespIllusts :=
  { Illusts := [], NextURL := cursor1, RankingIllusts := []
    SearchSpanLimit := 0, api := some sampleAPI }

/-- Sample user-previews page with a live cursor. -/
def pageU : RespUserPreviews :=
  { UserPreviews := [], NextURL := cursor1, api := some sampleAPI }

/-- Sample terminal comments page (empty cursor). -/
def emptyPageC : RespComments :=
  { Comments := [], NextURL := "", api := some sampleAPI }

/-- Sample terminal novels page. -/
def emptyPageN : RespNovels :=
  { Novels := [], NextURL := "", RankingNovels := []
    SearchSpanLimit := 0, api := some sampleAPI }

/-- Sample terminal illusts page. -/
def emptyPageI : RespIllusts :=
  { Illusts := [], NextURL := "", RankingIllusts := []
    SearchSpanLimit := 0, api := some sampleAPI }

/-- Sample terminal user-previews page. -/
def emptyPageU : RespUserPreviews :=
  { UserPreviews := [], NextURL := "", api := some sampleAPI }

/-- Sample comments page whose fetcher pointer is nil. -/
def nilPageC : RespComments :=
  { Comments := [], NextURL := cursor1, api := none }

/-- Sample novels page whose fetcher pointer is nil. -/
def nilPageN : RespNovels :=
  { Novels := [], NextURL := cursor1, RankingNovels := []
    SearchSpanLimit := 0, api := none }

/-- Sample illusts page whose fetcher pointer is nil. -/
def nilPageI : RespIllusts :=
  { Illusts := [], NextURL := cursor1, RankingIllusts := []
    SearchSpanLimit := 0, api := none }

/-- Sample user-previews page whose fetcher pointer is nil. -/
def nilPageU : RespUserPreviews :=
  { UserPreviews := [], NextURL := cursor1, api := none }

/-- Server that always fails comments fetches. -/
def netErrC : CommentsNet := fun _ _ _ => Except.error sampleErr

/-- Server that always fails novels fetches. -/
def netErrN : NovelsNet := fun _ _ _ => Except.error sampleErr

/-- Server that always fails illusts fetches. -/
def netErrI : IllustsNet := fun _ _ _ => Except.error sampleErr

/-- Server that always fails user-previews fetches. -/
def netErrU : UserPreviewsNet := fun _ _ _ => Except.error sampleErr

/-- Server answering every comments fetch with one comment and no further
cursor. -/
def netOkC : CommentsNet :=
  fun _ _ _ => Except.ok { comments := [{ id := 2 }], next_url := "" }

/-- Server answering every novels fetch with one novel and no further
cursor. -/
def netOkN : NovelsNet :=
  fun _ _ _ => Except.ok
    { novels := [{ id := 2 }], next_url := ""
      ranking_novels := [], search_span_limit := 5 }

/-- Server answering every illusts fetch with one illust and no further
cursor. -/
def netOkI : IllustsNet :=
  fun _ _ _ => Except.ok
    { illusts := [{ id := 2 }], next_url := ""
      ranking_illusts := [], search_span_limit := 5 }

/-- Server answering every user-previews fetch with one preview and no
further cursor. -/
def netOkU : UserPreviewsNet :=
  fun _ _ _ => Except.ok { user_previews := [{ id := 2 }], next_url := "" }

/-- Server JSON body for the bookmark-tags endpoint carrying a non-empty
cursor under the key `next_url`. -/
def bmDocWithCursor : BookmarkTagsDoc :=
  { bookmark_tags := [{ Count := 3, Name := "t" }], next_url := "https://n/bm" }

/-- Zero-value `RespBookmarkTags` decode target. -/
def emptyBMTarget : RespBookmarkTags :=
  { BookmarkTags := [], NextURL := "", api := none }

/-- The page `netOkC` produces from any advance of a page bound to
`sampleAPI`. -/
def stepPageC : RespComments :=
  { Comments := [{ id := 2 }], NextURL := "", api := some sampleAPI }

/-- The page `netOkN` produces from any advance of a page bound to
`sampleAPI`. -/
def stepPageN : RespNovels :=
  { Novels := [{ id := 2 }], NextURL := "", RankingNovels := []
    SearchSpanLimit := 5, api := some sampleAPI }

/-- The page `netOkI` produces from any advance of a page bound to
`sampleAPI`. -/
def stepPageI : RespIllusts :=
  { Illusts := [{ id := 2 }], NextURL := "", RankingIllusts := []
    SearchSpanLimit := 5, api := some sampleAPI }

/-- The page `netOkU` produces from any advance of a page bound to
`sampleAPI`. -/
def stepPageU : RespUserPreviews :=
  { UserPreviews := [{ id := 2 }], NextURL := "", api := some sampleAPI }

/-- Behavior of `NextComments` on an empty cursor. -/
theorem nextComments_empty (net : CommentsNet) (r : RespComments)
    (h : r.NextURL = "") :
    r.NextComments net =
      { receiver := r, page := none, err := some ErrEmptyNextURL, calls := [] } := by
  simp [RespComments.NextComments, h]

/-- Behavior of `NextComments` on a live cursor but nil fetcher. -/
theorem nextComments_nilApi (net : CommentsNet) (r : RespComments)
    (h1 : r.NextURL ≠ "") (h2 : r.api = none) :
    r.NextComments net =
      { receiver := r, page := none
        err := some (GoError.fetchErr nilFetcherErr)
        calls := [{ url := r.NextURL, extraParams := none }] } := by
  simp [RespComments.NextComments, h1, AppAPI.get, h2]

/-- Behavior of `NextComments` when the fetch fails. -/
theorem nextComments_fetchFail (net : CommentsNet) (r : RespComments)
    (a : AppAPI) (e : FetchErr) (h1 : r.NextURL ≠ "") (h2 : r.api = some a)
    (h3 : net a r.NextURL none = Except.error e) :
    r.NextComments net =
      { receiver := r, page := none, err := some (GoError.fetchErr e)
        calls := [{ url := r.NextURL, extraParams := none }] } := by
  simp [RespComments.NextComments, h1, AppAPI.get, h2, h3]

/-- Behavior of `NextComments` when the fetch succeeds. -/
theorem nextComments_fetchOk (net : CommentsNet) (r : RespComments)
    (a : AppAPI) (doc : CommentsDoc) (h1 : r.NextURL ≠ "") (h2 : r.api = some a)
    (h3 : net a r.NextURL none = Except.ok doc) :
    r.NextComments net =
      { receiver := r
        page := some
          { Comments := doc.comments, NextURL := doc.next_url, api := r.api }
        err := none
        calls := [{ url := r.NextURL, extraParams := none }] } := by
  simp [RespComments.NextComments, h1, AppAPI.get, h2, h3, decodeComments]

/-- Behavior of `NextNovels` on an empty cursor. -/
theorem nextNovels_empty (net : NovelsNet) (r : RespNovels)
    (h : r.NextURL = "") :
    r.NextNovels net =
      { receiver := r, page := none, err := some ErrEmptyNextURL, calls := [] } := by
  simp [RespNovels.NextNovels, h]

/-- Behavior of `NextNovels` on a live cursor but nil fetcher. -/
theorem nextNovels_nilApi (net : NovelsNet) (r : RespNovels)
    (h1 : r.NextURL ≠ "") (h2 : r.api = none) :
    r.NextNovels net =
      { receiver := r, page := none
        err := some (GoError.fetchErr nilFetcherErr)
        calls := [{ url := r.NextURL, extraParams := none }] } := by
  simp [RespNovels.NextNovels, h1, AppAPI.get, h2]

/-- Behavior of `NextNovels` when the fetch fails. -/
theorem nextNovels_fetchFail (net : NovelsNet) (r : RespNovels)
    (a : AppAPI) (e : FetchErr) (h1 : r.NextURL ≠ "") (h2 : r.api = some a)
    (h3 : net a r.NextURL none = Except.error e) :
    r.NextNovels net =
      { receiver := r, page := none, err := some (GoError.fetchErr e)
        calls := [{ url := r.NextURL, extraParams := none }] } := by
  simp [RespNovels.NextNovels, h1, AppAPI.get, h2, h3]

/-- Behavior of `NextNovels` when the fetch succeeds. -/
theorem nextNovels_fetchOk (net : NovelsNet) (r : RespNovels)
    (a : AppAPI) (doc : NovelsDoc) (h1 : r.NextURL ≠ "") (h2 : r.api = some a)
    (h3 : net a r.NextURL none = Except.ok doc) :
    r.NextNovels net =
      { receiver := r
        page := some
          { Novels := doc.novels, NextURL := doc.next_url
            RankingNovels := doc.ranking_novels
            SearchSpanLimit := doc.search_span_limit, api := r.api }
        err := none
        calls := [{ url := r.NextURL, extraParams := none }] } := by
  simp [RespNovels.NextNovels, h1, AppAPI.get, h2, h3, decodeNovels]

/-- Behavior of `NextIllusts` on an empty cursor. -/
theorem nextIllusts_empty (net : IllustsNet) (r : RespIllusts)
    (h : r.NextURL = "") :
    r.NextIllusts net =
      { receiver := r, page := none, err := some ErrEmptyNextURL, calls := [] } := by
  simp [RespIllusts.NextIllusts, h]

/-- Behavior of `NextIllusts` on a live cursor but nil fetcher. -/
theorem nextIllusts_nilApi (net : IllustsNet) (r : RespIllusts)
    (h1 : r.NextURL ≠ "") (h2 : r.api = none) :
    r.NextIllusts net =
      { receiver := r, page := none
        err := some (GoError.fetchErr nilFetcherErr)
        calls := [{ url := r.NextURL, extraParams := none }] } := by
  simp [RespIllusts.NextIllusts, h1, AppAPI.get, h2]

/-- Behavior of `NextIllusts` when the fetch fails. -/
theorem nextIllusts_fetchFail (net : IllustsNet) (r : RespIllusts)
    (a : AppAPI) (e : FetchErr) (h1 : r.NextURL ≠ "") (h2 : r.api = some a)
    (h3 : net a r.NextURL none = Except.error e) :
    r.NextIllusts net =
      { receiver := r, page := none, err := some (GoError.fetchErr e)
        calls := [{ url := r.NextURL, extraParams := none }] } := by
  simp [RespIllusts.NextIllusts, h1, AppAPI.get, h2, h3]

/-- Behavior of `NextIllusts` when the fetch succeeds. -/
theorem nextIllusts_fetchOk (net : IllustsNet) (r : RespIllusts)
    (a : AppAPI) (doc : IllustsDoc) (h1 : r.NextURL ≠ "") (h2 : r.api = some a)
    (h3 : net a r.NextURL none = Except.ok doc) :
    r.NextIllusts net =
      { receiver := r
        page := some
          { Illusts := doc.illusts, NextURL := doc.next_url
            RankingIllusts := doc.ranking_illusts
            SearchSpanLimit := doc.search_span_limit, api := r.api }
        err := none
        calls := [{ url := r.NextURL, extraParams := none }] } := by
  simp [RespIllusts.NextIllusts, h1, AppAPI.get, h2, h3, decodeIllusts]

/-- Behavior of `NextFollowing` on an empty cursor. -/
theorem nextFollowing_empty (net : UserPreviewsNet) (r : RespUserPreviews)
    (h : r.NextURL = "") :
    r.NextFollowing net =
      { receiver := r, page := none, err := some ErrEmptyNextURL, calls := [] } := by
  simp [RespUserPreviews.NextFollowing, h]

/-- Behavior of `NextFollowing` on a live cursor but nil fetcher. -/
theorem nextFollowing_nilApi (net : UserPreviewsNet) (r : RespUserPreviews)
    (h1 : r.NextURL ≠ "") (h2 : r.api = none) :
    r.NextFollowing net =
      { receiver := r, page := none
        err := some (GoError.fetchErr nilFetcherErr)
        calls := [{ url := r.NextURL, extraParams := none }] } := by
  simp [RespUserPreviews.NextFollowing, h1, AppAPI.get, h2]

/-- Behavior of `NextFollowing` when the fetch fails. -/
theorem nextFollowing_fetchFail (net : UserPreviewsNet) (r : RespUserPreviews)
    (a : AppAPI) (e : FetchErr) (h1 : r.NextURL ≠ "") (h2 : r.api = some a)
    (h3 : net a r.NextURL none = Except.error e) :
    r.NextFollowing net =
      { receiver := r, page := none, err := some (GoError.fetchErr e)
        calls := [{ url := r.NextURL, extraParams := none }] } := by
  simp [RespUserPreviews.NextFollowing, h1, AppAPI.get, h2, h3]

/-- Behavior of `NextFollowing` when the fetch succeeds. -/
theorem nextFollowing_fetchOk (net : UserPreviewsNet) (r : RespUserPreviews)
    (a : AppAPI) (doc : UserPreviewsDoc) (h1 : r.NextURL ≠ "")
    (h2 : r.api = some a) (h3 : net a r.NextURL none = Except.ok doc) :
    r.NextFollowing net =
      { receiver := r
        page := some
          { UserPreviews := doc.user_previews, NextURL := doc.next_url
            api := r.api }
        err := none
        calls := [{ url := r.NextURL, extraParams := none }] } := by
  simp [RespUserPreviews.NextFollowing, h1, AppAPI.get, h2, h3, decodeUserPreviews]

/-- A failed chain stays failed one step later. -/
theorem chain_succ_none {α : Type} (step : α → Option α) (n : Nat) (r : α)
    (h : chain step n r = none) : chain step (n + 1) r = none := by
  simp [chain, h]

/-- A chain that is `none` at step `k + 1` is `none` at every later step. -/
theorem chain_none_of_lt {α : Type} (step : α → Option α) (r : α) (k : Nat)
    (hk : chain step (k + 1) r = none) :
    ∀ m, k < m → chain step m r = none := by
  intro m
  induction m with
  | zero => intro hm; omega
  | succ n ih =>
    intro hm
    by_cases hn : k < n
    · exact chain_succ_none step n r (ih hn)
    · have hnk : n = k := by omega
      subst hnk
      exact hk

/-- C1: on a paginated response whose `NextURL` is the empty string, each of
the four advance methods returns a nil page, the distinct sentinel
`ErrEmptyNextURL` (never equal to a propagated fetch error), and performs no
network call: the call log of the fetcher's `get` is empty. -/
theorem nextOnEmptyCursorFailsFast :
    (∀ (net : CommentsNet) (r : RespComments), r.NextURL = "" →
        r.NextComments net =
          { receiver := r, page := none, err := some ErrEmptyNextURL
            calls := [] }) ∧
    (∀ (net : NovelsNet) (r : RespNovels), r.NextURL = "" →
        r.NextNovels net =
          { receiver := r, page := none, err := some ErrEmptyNextURL
            calls := [] }) ∧
    (∀ (net : IllustsNet) (r : RespIllusts), r.NextURL = "" →
        r.NextIllusts net =
          { receiver := r, page := none, err := some ErrEmptyNextURL
            calls := [] }) ∧
    (∀ (net : UserPreviewsNet) (r : RespUserPreviews), r.NextURL = "" →
        r.NextFollowing net =
          { receiver := r, page := none, err := some ErrEmptyNextURL
            calls := [] }) ∧
    (∀ e : FetchErr, ErrEmptyNextURL ≠ GoError.fetchErr e) := by
  refine ⟨nextComments_empty, nextNovels_empty, nextIllusts_empty,
    nextFollowing_empty, ?_⟩
  intro e h
  exact GoError.noConfusion h

/-- Witness for C1 at concrete terminal pages of each kind. -/
theorem nextOnEmptyCursorFailsFast_witness :
    emptyPageC.NextComments netErrC =
      { receiver := emptyPageC, page := none, err := some ErrEmptyNextURL
        calls := [] } ∧
    emptyPageN.NextNovels netErrN =
      { receiver := emptyPageN, page := none, err := some ErrEmptyNextURL
        calls := [] } ∧
    emptyPageI.NextIllusts netErrI =
      { receiver := emptyPageI, page := none, err := some ErrEmptyNextURL
        calls := [] } ∧
    emptyPageU.NextFollowing netErrU =
      { receiver := emptyPageU, page := none, err := some ErrEmptyNextURL
        calls := [] } :=
  ⟨nextOnEmptyCursorFailsFast.1 netErrC emptyPageC rfl,
   nextOnEmptyCursorFailsFast.2.1 netErrN emptyPageN rfl,
   nextOnEmptyCursorFailsFast.2.2.1 netErrI emptyPageI rfl,
   nextOnEmptyCursorFailsFast.2.2.2.1 netErrU emptyPageU rfl⟩

/-- C3: the four advance-capable kinds do populate their cursor verbatim from
the body's `next_url` key, but `RespBookmarkTags.NextURL` carries no `json`
tag, Go's untagged case-insensitive field match of `NextURL` never matches
the key `next_url`, and so a bookmark-tags body carrying a non-empty
`next_url` decodes to a page whose cursor is still the empty string. -/
theorem bookmarkTagsCursorDropped :
    (∀ (doc : CommentsDoc) (t : RespComments),
        (decodeComments doc t).NextURL = doc.next_url) ∧
    (∀ (doc : NovelsDoc) (t : RespNovels),
        (decodeNovels doc t).NextURL = doc.next_url) ∧
    (∀ (doc : IllustsDoc) (t : RespIllusts),
        (decodeIllusts doc t).NextURL = doc.next_url) ∧
    (∀ (doc : UserPreviewsDoc) (t : RespUserPreviews),
        (decodeUserPreviews doc t).NextURL = doc.next_url) ∧
    goFieldKeyMatch nextURLFieldName nextURLJsonKey = false ∧
    bmDocWithCursor.next_url = "https://n/bm" ∧
    (decodeBookmarkTags bmDocWithCursor emptyBMTarget).NextURL = "" ∧
    (decodeBookmarkTags bmDocWithCursor emptyBMTarget).BookmarkTags =
      bmDocWithCursor.bookmark_tags := by
  refine ⟨fun doc t => rfl, fun doc t => rfl, fun doc t => rfl, fun doc t => rfl,
    by decide, rfl, by decide, rfl⟩

/-- C4: on a live cursor, when the fetch fails each advance method returns a
nil page together with the collaborator's error payload unchanged, wrapped
only into the Go `error` interface (`GoError.fetchErr`), never into a
pagination-specific error. -/
theorem nextFetchErrorPropagated :
    (∀ (net : CommentsNet) (r : RespComments) (a : AppAPI) (e : FetchErr),
        r.NextURL ≠ "" → r.api = some a →
        net a r.NextURL none = Except.error e →
        (r.NextComments net).page = none ∧
          (r.NextComments net).err = some (GoError.fetchErr e)) ∧
    (∀ (net : NovelsNet) (r : RespNovels) (a : AppAPI) (e : FetchErr),
        r.NextURL ≠ "" → r.api = some a →
        net a r.NextURL none = Except.error e →
        (r.NextNovels net).page = none ∧
          (r.NextNovels net).err = some (GoError.fetchErr e)) ∧
    (∀ (net : IllustsNet) (r : RespIllusts) (a : AppAPI) (e : FetchErr),
        r.NextURL ≠ "" → r.api = some a →
        net a r.NextURL none = Except.error e →
        (r.NextIllusts net).page = none ∧
          (r.NextIllusts net).err = some (GoError.fetchErr e)) ∧
    (∀ (net : UserPreviewsNet) (r : RespUserPreviews) (a : AppAPI) (e : FetchErr),
        r.NextURL ≠ "" → r.api = some a →
        net a r.NextURL none = Except.error e →
        (r.NextFollowing net).page = none ∧
          (r.NextFollowing net).err = some (GoError.fetchErr e)) := by
  refine ⟨?_, ?_, ?_, ?_⟩
  · intro net r a e h1 h2 h3
    rw [nextComments_fetchFail net r a e h1 h2 h3]
    exact ⟨rfl, rfl⟩
  · intro net r a e h1 h2 h3
    rw [nextNovels_fetchFail net r a e h1 h2 h3]
    exact ⟨rfl, rfl⟩
  · intro net r a e h1 h2 h3
    rw [nextIllusts_fetchFail net r a e h1 h2 h3]
    exact ⟨rfl, rfl⟩
  · intro net r a e h1 h2 h3
    rw [nextFollowing_fetchFail net r a e h1 h2 h3]
    exact ⟨rfl, rfl⟩

/-- Witness for C4 at concrete pages against an always-failing server. -/
theorem nextFetchErrorPropagated_witness :
    ((pageC.NextComments netErrC).page = none ∧
      (pageC.NextComments netErrC).err = some (GoError.fetchErr sampleErr)) ∧
    ((pageN.NextNovels netErrN).page = none ∧
      (pageN.NextNovels netErrN).err = some (GoError.fetchErr sampleErr)) ∧
    ((pageI.NextIllusts netErrI).page = none ∧
      (pageI.NextIllusts netErrI).err = some (GoError.fetchErr sampleErr)) ∧
    ((pageU.NextFollowing netErrU).page = none ∧
      (pageU.NextFollowing netErrU).err = some (GoError.fetchErr sampleErr)) :=
  ⟨nextFetchErrorPropagated.1 netErrC pageC sampleAPI sampleErr
      (by decide) rfl rfl,
   nextFetchErrorPropagated.2.1 netErrN pageN sampleAPI sampleErr
      (by decide) rfl rfl,
   nextFetchErrorPropagated.2.2.1 netErrI pageI sampleAPI sampleErr
      (by decide) rfl rfl,
   nextFetchErrorPropagated.2.2.2 netErrU pageU sampleAPI sampleErr
      (by decide) rfl rfl⟩

/-- C5: in a traversal chain, once the page reached after `k` steps carries an
empty cursor (because the response fetched at step `k` had an empty
`next_url`), the advance at step `k + 1` returns `ErrEmptyNextURL` with no
network call, and the chain is `none` at every step past `k` — it never loops
past the terminal page and never yields a page again. -/
theorem chainStopsAtEmptyCursor :
    (∀ (net : CommentsNet) (r p : RespComments) (k : Nat),
        chain (commentsStep net) k r = some p → p.NextURL = "" →
        (p.NextComments net).err = some ErrEmptyNextURL ∧
        (p.NextComments net).page = none ∧
        (p.NextComments net).calls = [] ∧
        ∀ m, k < m → chain (commentsStep net) m r = none) ∧
    (∀ (net : IllustsNet) (r p : RespIllusts) (k : Nat),
        chain (illustsStep net) k r = some p → p.NextURL = "" →
        (p.NextIllusts net).err = some ErrEmptyNextURL ∧
        (p.NextIllusts net).page = none ∧
        (p.NextIllusts net).calls = [] ∧
        ∀ m, k < m → chain (illustsStep net) m r = none) := by
  constructor
  · intro net r p k hk hp
    have hstep : commentsStep net p = none := by
      rw [commentsStep, nextComments_empty net p hp]
    have hnone : chain (commentsStep net) (k + 1) r = none := by
      simp [chain, hk, hstep]
    refine ⟨?_, ?_, ?_, chain_none_of_lt (commentsStep net) r k hnone⟩ <;>
      rw [nextComments_empty net p hp]
  · intro net r p k hk hp
    have hstep : illustsStep net p = none := by
      rw [illustsStep, nextIllusts_empty net p hp]
    have hnone : chain (illustsStep net) (k + 1) r = none := by
      simp [chain, hk, hstep]
    refine ⟨?_, ?_, ?_, chain_none_of_lt (illustsStep net) r k hnone⟩ <;>
      rw [nextIllusts_empty net p hp]

/-- Witness for C5: a two-page traversal whose second page is terminal stops
exactly at step 2. -/
theorem chainStopsAtEmptyCursor_witness :
    (chain (commentsStep netOkC) 2 pageC = none ∧
      (stepPageC.NextComments netOkC).err = some ErrEmptyNextURL) ∧
    (chain (illustsStep netOkI) 2 pageI = none ∧
      (stepPageI.NextIllusts netOkI).err = some ErrEmptyNextURL) := by
  have h1 := chainStopsAtEmptyCursor.1 netOkC pageC stepPageC 1 (by decide) rfl
  have h2 := chainStopsAtEmptyCursor.2 netOkI pageI stepPageI 1 (by decide) rfl
  exact ⟨⟨h1.2.2.2 2 (by decide), h1.1⟩, ⟨h2.2.2.2 2 (by decide), h2.1⟩⟩

/-- C6: no advance method ever writes through its receiver — on every path
the receiver after the call equals the receiver before it — and a successful
advance returns a newly constructed page, decoded from the fetched body with
only the fetcher pointer carried over from the receiver. -/
theorem nextNoSelfMutation :
    (∀ (net : CommentsNet) (r : RespComments),
        (r.NextComments net).receiver = r) ∧
    (∀ (net : NovelsNet) (r : RespNovels),
        (r.NextNovels net).receiver = r) ∧
    (∀ (net : IllustsNet) (r : RespIllusts),
        (r.NextIllusts net).receiver = r) ∧
    (∀ (net : UserPreviewsNet) (r : RespUserPreviews),
        (r.NextFollowing net).receiver = r) ∧
    (∀ (net : CommentsNet) (r : RespComments) (a : AppAPI) (doc : CommentsDoc),
        r.NextURL ≠ "" → r.api = some a →
        net a r.NextURL none = Except.ok doc →
        (r.NextComments net).page =
          some { Comments := doc.comments, NextURL := doc.next_url
                 api := r.api }) ∧
    (∀ (net : NovelsNet) (r : RespNovels) (a : AppAPI) (doc : NovelsDoc),
        r.NextURL ≠ "" → r.api = some a →
        net a r.NextURL none = Except.ok doc →
        (r.NextNovels net).page =
          some { Novels := doc.novels, NextURL := doc.next_url
                 RankingNovels := doc.ranking_novels
                 SearchSpanLimit := doc.search_span_limit, api := r.api }) ∧
    (∀ (net : IllustsNet) (r : RespIllusts) (a : AppAPI) (doc : IllustsDoc),
        r.NextURL ≠ "" → r.api = some a →
        net a r.NextURL none = Except.ok doc →
        (r.NextIllusts net).page =
          some { Illusts := doc.illusts, NextURL := doc.next_url
                 RankingIllusts := doc.ranking_illusts
                 SearchSpanLimit := doc.search_span_limit, api := r.api }) ∧
    (∀ (net : UserPreviewsNet) (r : RespUserPreviews) (a : AppAPI)
        (doc : UserPreviewsDoc),
        r.NextURL ≠ "" → r.api = some a →
        net a r.NextURL none = Except.ok doc →
        (r.NextFollowing net).page =
          some { UserPreviews := doc.user_previews, NextURL := doc.next_url
                 api := r.api }) := by
  refine ⟨?_, ?_, ?_, ?_, ?_, ?_, ?_, ?_⟩
  · intro net r
    by_cases h1 : r.NextURL = ""
    · rw [nextComments_empty net r h1]
    · rcases h2 : r.api with _ | a
      · rw [nextComments_nilApi net r h1 h2]
      · rcases h3 : net a r.NextURL none with e | doc
        · rw [nextComments_fetchFail net r a e h1 h2 h3]
        · rw [nextComments_fetchOk net r a doc h1 h2 h3]
  · intro net r
    by_cases h1 : r.NextURL = ""
    · rw [nextNovels_empty net r h1]
    · rcases h2 : r.api with _ | a
      · rw [nextNovels_nilApi net r h1 h2]
      · rcases h3 : net a r.NextURL none with e | doc
        · rw [nextNovels_fetchFail net r a e h1 h2 h3]
        · rw [nextNovels_fetchOk net r a doc h1 h2 h3]
  · intro net r
    by_cases h1 : r.NextURL = ""
    · rw [nextIllusts_empty net r h1]
    · rcases h2 : r.api with _ | a
      · rw [nextIllusts_nilApi net r h1 h2]
      · rcases h3 : net a r.NextURL none with e | doc
        · rw [nextIllusts_fetchFail net r a e h1 h2 h3]
        · rw [nextIllusts_fetchOk net r a doc h1 h2 h3]
  · intro net r
    by_cases h1 : r.NextURL = ""
    · rw [nextFollowing_empty net r h1]
    · rcases h2 : r.api with _ | a
      · rw [nextFollowing_nilApi net r h1 h2]
      · rcases h3 : net a r.NextURL none with e | doc
        · rw [nextFollowing_fetchFail net r a e h1 h2 h3]
        · rw [nextFollowing_fetchOk net r a doc h1 h2 h3]
  · intro net r a doc h1 h2 h3
    rw [nextComments_fetchOk net r a doc h1 h2 h3]
  · intro net r a doc h1 h2 h3
    rw [nextNovels_fetchOk net r a doc h1 h2 h3]
  · intro net r a doc h1 h2 h3
    rw [nextIllusts_fetchOk net r a doc h1 h2 h3]
  · intro net r a doc h1 h2 h3
    rw [nextFollowing_fetchOk net r a doc h1 h2 h3]

/-- Witness for C6 at a concrete page and server: the receiver is unchanged
and the produced page is the freshly decoded one. -/
theorem nextNoSelfMutation_witness :
    (pageC.NextComments netOkC).receiver = pageC ∧
    (pageC.NextComments netOkC).page =
      some { Comments := [{ id := 2 }], NextURL := "", api := pageC.api } := by
  refine ⟨nextNoSelfMutation.1 netOkC pageC, ?_⟩
  exact nextNoSelfMutation.2.2.2.2.1 netOkC pageC sampleAPI
    { comments := [{ id := 2 }], next_url := "" } (by decide) rfl rfl

/-- C7: every page successfully produced by an advance method carries the
same fetcher pointer as the page it was advanced from. -/
theorem nextFetcherBindingPersists :
    (∀ (net : CommentsNet) (r p : RespComments),
        (r.NextComments net).page = some p → p.api = r.api) ∧
    (∀ (net : NovelsNet) (r p : RespNovels),
        (r.NextNovels net).page = some p → p.api = r.api) ∧
    (∀ (net : IllustsNet) (r p : RespIllusts),
        (r.NextIllusts net).page = some p → p.api = r.api) ∧
    (∀ (net : UserPreviewsNet) (r p : RespUserPreviews),
        (r.NextFollowing net).page = some p → p.api = r.api) := by
  refine ⟨?_, ?_, ?_, ?_⟩
  · intro net r p hp
    by_cases h1 : r.NextURL = ""
    · rw [nextComments_empty net r h1] at hp
      exact Option.noConfusion hp
    · rcases h2 : r.api with _ | a
      · rw [nextComments_nilApi net r h1 h2] at hp
        exact Option.noConfusion hp
      · rcases h3 : net a r.NextURL none with e | doc
        · rw [nextComments_fetchFail net r a e h1 h2 h3] at hp
          exact Option.noConfusion hp
        · rw [nextComments_fetchOk net r a doc h1 h2 h3] at hp
          rw [← Option.some.inj hp]
          exact h2
  · intro net r p hp
    by_cases h1 : r.NextURL = ""
    · rw [nextNovels_empty net r h1] at hp
      exact Option.noConfusion hp
    · rcases h2 : r.api with _ | a
      · rw [nextNovels_nilApi net r h1 h2] at hp
        exact Option.noConfusion hp
      · rcases h3 : net a r.NextURL none with e | doc
        · rw [nextNovels_fetchFail net r a e h1 h2 h3] at hp
          exact Option.noConfusion hp
        · rw [nextNovels_fetchOk net r a doc h1 h2 h3] at hp
          rw [← Option.some.inj hp]
          exact h2
  · intro net r p hp
    by_cases h1 : r.NextURL = ""
    · rw [nextIllusts_empty net r h1] at hp
      exact Option.noConfusion hp
    · rcases h2 : r.api with _ | a
      · rw [nextIllusts_nilApi net r h1 h2] at hp
        exact Option.noConfusion hp
      · rcases h3 : net a r.NextURL none with e | doc
        · rw [nextIllusts_fetchFail net r a e h1 h2 h3] at hp
          exact Option.noConfusion hp
        · rw [nextIllusts_fetchOk net r a doc h1 h2 h3] at hp
          rw [← Option.some.inj hp]
          exact h2
  · intro net r p hp
    by_cases h1 : r.NextURL = ""
    · rw [nextFollowing_empty net r h1] at hp
      exact Option.noConfusion hp
    · rcases h2 : r.api with _ | a
      · rw [nextFollowing_nilApi net r h1 h2] at hp
        exact Option.noConfusion hp
      · rcases h3 : net a r.NextURL none with e | doc
        · rw [nextFollowing_fetchFail net r a e h1 h2 h3] at hp
          exact Option.noConfusion hp
        · rw [nextFollowing_fetchOk net r a doc h1 h2 h3] at hp
          rw [← Option.some.inj hp]
          exact h2

/-- Witness for C7 at concrete advances of each kind. -/
theorem nextFetcherBindingPersists_witness :
    stepPageC.api = pageC.api ∧ stepPageN.api = pageN.api ∧
    stepPageI.api = pageI.api ∧ stepPageU.api = pageU.api :=
  ⟨nextFetcherBindingPersists.1 netOkC pageC stepPageC (by decide),
   nextFetcherBindingPersists.2.1 netOkN pageN stepPageN (by decide),
   nextFetcherBindingPersists.2.2.1 netOkI pageI stepPageI (by decide),
   nextFetcherBindingPersists.2.2.2 netOkU pageU stepPageU (by decide)⟩

/-- C8: each advance method issues no call on an empty cursor and otherwise
exactly one `get` call, whose URL is the stored cursor verbatim and whose
extra-parameters argument is `none` (Go `nil`). -/
theorem nextCallsCursorVerbatim :
    (∀ (net : CommentsNet) (r : RespComments),
        (r.NextComments net).calls =
          if r.NextURL = "" then []
          else [{ url := r.NextURL, extraParams := none }]) ∧
    (∀ (net : NovelsNet) (r : RespNovels),
        (r.NextNovels net).calls =
          if r.NextURL = "" then []
          else [{ url := r.NextURL, extraParams := none }]) ∧
    (∀ (net : IllustsNet) (r : RespIllusts),
        (r.NextIllusts net).calls =
          if r.NextURL = "" then []
          else [{ url := r.NextURL, extraParams := none }]) ∧
    (∀ (net : UserPreviewsNet) (r : RespUserPreviews),
        (r.NextFollowing net).calls =
          if r.NextURL = "" then []
          else [{ url := r.NextURL, extraParams := none }]) := by
  refine ⟨?_, ?_, ?_, ?_⟩
  · intro net r
    by_cases h1 : r.NextURL = ""
    · rw [nextComments_empty net r h1, if_pos h1]
    · rcases h2 : r.api with _ | a
      · rw [nextComments_nilApi net r h1 h2, if_neg h1]
      · rcases h3 : net a r.NextURL none with e | doc
        · rw [nextComments_fetchFail net r a e h1 h2 h3, if_neg h1]
        · rw [nextComments_fetchOk net r a doc h1 h2 h3, if_neg h1]
  · intro net r
    by_cases h1 : r.NextURL = ""
    · rw [nextNovels_empty net r h1, if_pos h1]
    · rcases h2 : r.api with _ | a
      · rw [nextNovels_nilApi net r h1 h2, if_neg h1]
      · rcases h3 : net a r.NextURL none with e | doc
        · rw [nextNovels_fetchFail net r a e h1 h2 h3, if_neg h1]
        · rw [nextNovels_fetchOk net r a doc h1 h2 h3, if_neg h1]
  · intro net r
    by_cases h1 : r.NextURL = ""
    · rw [nextIllusts_empty net r h1, if_pos h1]
    · rcases h2 : r.api with _ | a
      · rw [nextIllusts_nilApi net r h1 h2, if_neg h1]
      · rcases h3 : net a r.NextURL none with e | doc
        · rw [nextIllusts_fetchFail net r a e h1 h2 h3, if_neg h1]
        · rw [nextIllusts_fetchOk net r a doc h1 h2 h3, if_neg h1]
  · intro net r
    by_cases h1 : r.NextURL = ""
    · rw [nextFollowing_empty net r h1, if_pos h1]
    · rcases h2 : r.api with _ | a
      · rw [nextFollowing_nilApi net r h1 h2, if_neg h1]
      · rcases h3 : net a r.NextURL none with e | doc
        · rw [nextFollowing_fetchFail net r a e h1 h2 h3, if_neg h1]
        · rw [nextFollowing_fetchOk net r a doc h1 h2 h3, if_neg h1]

/-- C9: advancing a page whose fetcher pointer is nil while its cursor is
live is total in the embedding and takes the ordinary error branch: it
returns a nil page and the fetch error `nilFetcherErr`. -/
theorem nextNilFetcherFails :
    (∀ (net : CommentsNet) (r : RespComments), r.api = none → r.NextURL ≠ "" →
        (r.NextComments net).page = none ∧
          (r.NextComments net).err =
            some (GoError.fetchErr nilFetcherErr)) ∧
    (∀ (net : NovelsNet) (r : RespNovels), r.api = none → r.NextURL ≠ "" →
        (r.NextNovels net).page = none ∧
          (r.NextNovels net).err =
            some (GoError.fetchErr nilFetcherErr)) ∧
    (∀ (net : IllustsNet) (r : RespIllusts), r.api = none → r.NextURL ≠ "" →
        (r.NextIllusts net).page = none ∧
          (r.NextIllusts net).err =
            some (GoError.fetchErr nilFetcherErr)) ∧
    (∀ (net : UserPreviewsNet) (r : RespUserPreviews), r.api = none →
        r.NextURL ≠ "" →
        (r.NextFollowing net).page = none ∧
          (r.NextFollowing net).err =
            some (GoError.fetchErr nilFetcherErr)) := by
  refine ⟨?_, ?_, ?_, ?_⟩
  · intro net r h2 h1
    rw [nextComments_nilApi net r h1 h2]
    exact ⟨rfl, rfl⟩
  · intro net r h2 h1
    rw [nextNovels_nilApi net r h1 h2]
    exact ⟨rfl, rfl⟩
  · intro net r h2 h1
    rw [nextIllusts_nilApi net r h1 h2]
    exact ⟨rfl, rfl⟩
  · intro net r h2 h1
    rw [nextFollowing_nilApi net r h1 h2]
    exact ⟨rfl, rfl⟩

/-- Witness for C9 at concrete nil-fetcher pages of each kind. -/
theorem nextNilFetcherFails_witness :
    ((nilPageC.NextComments netErrC).page = none ∧
      (nilPageC.NextComments netErrC).err =
        some (GoError.fetchErr nilFetcherErr)) ∧
    ((nilPageN.NextNovels netErrN).page = none ∧
      (nilPageN.NextNovels netErrN).err =
        some (GoError.fetchErr nilFetcherErr)) ∧
    ((nilPageI.NextIllusts netErrI).page = none ∧
      (nilPageI.NextIllusts netErrI).err =
        some (GoError.fetchErr nilFetcherErr)) ∧
    ((nilPageU.NextFollowing netErrU).page = none ∧
      (nilPageU.NextFollowing netErrU).err =
        some (GoError.fetchErr nilFetcherErr)) :=
  ⟨nextNilFetcherFails.1 netErrC nilPageC rfl (by decide),
   nextNilFetcherFails.2.1 netErrN nilPageN rfl (by decide),
   nextNilFetcherFails.2.2.1 netErrI nilPageI rfl (by decide),
   nextNilFetcherFails.2.2.2 netErrU nilPageU rfl (by decide)⟩

/-- C10: on every input, each advance method returns exactly one of a non-nil
page or a non-nil error: the page is present precisely when the error is
absent. -/
theorem nextExactlyOnePageOrError :
    (∀ (net : CommentsNet) (r : RespComments),
        (r.NextComments net).page.isSome = !(r.NextComments net).err.isSome) ∧
    (∀ (net : NovelsNet) (r : RespNovels),
        (r.NextNovels net).page.isSome = !(r.NextNovels net).err.isSome) ∧
    (∀ (net : IllustsNet) (r : RespIllusts),
        (r.NextIllusts net).page.isSome = !(r.NextIllusts net).err.isSome) ∧
    (∀ (net : UserPreviewsNet) (r : RespUserPreviews),
        (r.NextFollowing net).page.isSome =
          !(r.NextFollowing net).err.isSome) := by
  refine ⟨?_, ?_, ?_, ?_⟩
  · intro net r
    by_cases h1 : r.NextURL = ""
    · simp [nextComments_empty net r h1]
    · rcases h2 : r.api with _ | a
      · simp [nextComments_nilApi net r h1 h2]
      · rcases h3 : net a r.NextURL none with e | doc
        · simp [nextComments_fetchFail net r a e h1 h2 h3]
        · simp [nextComments_fetchOk net r a doc h1 h2 h3]
  · intro net r
    by_cases h1 : r.NextURL = ""
    · simp [nextNovels_empty net r h1]
    · rcases h2 : r.api with _ | a
      · simp [nextNovels_nilApi net r h1 h2]
      · rcases h3 : net a r.NextURL none with e | doc
        · simp [nextNovels_fetchFail net r a e h1 h2 h3]
        · simp [nextNovels_fetchOk net r a doc h1 h2 h3]
  · intro net r
    by_cases h1 : r.NextURL = ""
    · simp [nextIllusts_empty net r h1]
    · rcases h2 : r.api with _ | a
      · simp [nextIllusts_nilApi net r h1 h2]
      · rcases h3 : net a r.NextURL none with e | doc
        · simp [nextIllusts_fetchFail net r a e h1 h2 h3]
        · simp [nextIllusts_fetchOk net r a doc h1 h2 h3]
  · intro net r
    by_cases h1 : r.NextURL = ""
    · simp [nextFollowing_empty net r h1]
    · rcases h2 : r.api with _ | a
      · simp [nextFollowing_nilApi net r h1 h2]
      · rcases h3 : net a r.NextURL none with e | doc
        · simp [nextFollowing_fetchFail net r a e h1 h2 h3]
        · simp [nextFollowing_fetchOk net r a doc h1 h2 h3]

end pixiv
